import Mathlib

/-!
Verification development for the WCAG Color Contrast Engine
(`app/lib/colorsense.py`, class `ColorContrastAnalyzer`).

The Python source is shallowly embedded: strings are handled as `List Char`
cores with `String` wrappers, Python `int` results are `Int`, float contrast
ratios are modelled over `ℚ` (exact rationals) and the transcendental WCAG
luminance formula over `ℝ`.  Regex use in the source is embedded as the
explicit matching procedure the concrete pattern performs.
-/

namespace ColorSense

/-- An RGB colour triple as produced by the analyzer.  Channels are integers:
the source tuples normally hold 0..255 values but nothing in the code clamps
them (the `rgb()` branch of `parse_color` and the sign handling of Python
`int` parsing can both escape that range). -/
abbrev RGB : Type := Int × Int × Int

/-- Characters treated as whitespace by Python `str.strip()` / `int` /
regex `\s` (ASCII fragment). -/
def pySpace (c : Char) : Bool :=
  c = ' ' || c = '\t' || c = '\n' || c = '\r' || c = Char.ofNat 11 || c = Char.ofNat 12

/-- Python `str.strip()` on a char list: whitespace removed from both ends. -/
def stripL (cs : List Char) : List Char :=
  ((cs.dropWhile pySpace).reverse.dropWhile pySpace).reverse

/-- Python `str.lower()` (ASCII fragment). -/
def pyLowerL (cs : List Char) : List Char := cs.map Char.toLower

/-- The characters Python `int(_, 16)` accepts as hexadecimal digits. -/
def hexDigitChars : List Char :=
  ['0','1','2','3','4','5','6','7','8','9',
   'A','B','C','D','E','F','a','b','c','d','e','f']

def isHexDigitCh (c : Char) : Bool := decide (c ∈ hexDigitChars)

/-- Numeric value of a hexadecimal digit character. -/
def hexVal : Char → Nat
  | '1' => 1 | '2' => 2 | '3' => 3 | '4' => 4 | '5' => 5
  | '6' => 6 | '7' => 7 | '8' => 8 | '9' => 9
  | 'a' => 10 | 'b' => 11 | 'c' => 12 | 'd' => 13 | 'e' => 14 | 'f' => 15
  | 'A' => 10 | 'B' => 11 | 'C' => 12 | 'D' => 13 | 'E' => 14 | 'F' => 15
  | _ => 0

/-- Tail parser for Python `int(_, 16)` digit groups: an underscore must sit
between two digits; `acc` is the value parsed so far. -/
def hexDigitsAux (acc : Nat) : List Char → Option Nat
  | [] => some acc
  | c :: rest =>
    if c = '_' then
      match rest with
      | [] => none
      | d :: rest2 =>
        if isHexDigitCh d then hexDigitsAux (16 * acc + hexVal d) rest2 else none
    else if isHexDigitCh c then hexDigitsAux (16 * acc + hexVal c) rest else none

/-- A nonempty underscore-grouped hexadecimal digit sequence
(must start with a digit). -/
def parseHexSeq : List Char → Option Nat
  | [] => none
  | c :: rest => if isHexDigitCh c then hexDigitsAux (hexVal c) rest else none

/-- Python `int(s, 16)` (ASCII fragment): strip whitespace, allow one sign,
then a nonempty hex digit sequence with single underscores between digits.
Python additionally accepts a `0x` prefix after the sign; on the at-most-two
character slices this development ever feeds to it the only prefixed form is
`0x`/`0X` itself, which is invalid under both readings, so the prefix case is
omitted.  Returns `none` where Python raises `ValueError`. -/
def pyIntHex (s : String) : Option Int :=
  match stripL s.data with
  | [] => none
  | c :: rest =>
    if c = '+' then (parseHexSeq rest).map (fun n => (n : Int))
    else if c = '-' then (parseHexSeq rest).map (fun n => -(n : Int))
    else (parseHexSeq (c :: rest)).map (fun n => (n : Int))

/-- Python string slice `s[i:j]` on char lists (for `0 ≤ i ≤ j`). -/
def sliceL (cs : List Char) (i j : Nat) : List Char := (cs.drop i).take (j - i)

/-- Embedding of `ColorContrastAnalyzer.hex_to_rgb`: strip leading `#`s, expand 3-digit
shorthand by doubling each character, then parse the three 2-character slices
at offsets 0, 2, 4; a `ValueError` in any slice yields black `(0,0,0)`. -/
def hexToRgbL (cs : List Char) : RGB :=
  let h0 := cs.dropWhile (fun c => c == '#')
  let h := if h0.length = 3 then h0.flatMap (fun c => [c, c]) else h0
  match pyIntHex (String.mk (sliceL h 0 2)), pyIntHex (String.mk (sliceL h 2 4)),
        pyIntHex (String.mk (sliceL h 4 6)) with
  | some r, some g, some b => (r, g, b)
  | _, _, _ => ((0 : Int), 0, 0)

def hex_to_rgb (s : String) : RGB := hexToRgbL s.data

/-- Lowercase hexadecimal digits of `n`, no leading zeros
(Python format code `x`). -/
def natHexDigits (n : Nat) : List Char := Nat.toDigits 16 n

/-- Python `'{:02x}'.format(n)`: optional sign, zero padding to total width 2,
lowercase hex digits. -/
def fmt02xL (n : Int) : List Char :=
  let sign : List Char := if n < 0 then ['-'] else []
  let ds := natHexDigits n.natAbs
  sign ++ List.replicate (2 - (sign.length + ds.length)) '0' ++ ds

/-- Embedding of `ColorContrastAnalyzer.rgb_to_hex`: `'#{:02x}{:02x}{:02x}'.format(*rgb)`. -/
def rgb_to_hex (c : RGB) : String :=
  String.mk ('#' :: (fmt02xL c.1 ++ fmt02xL c.2.1 ++ fmt02xL c.2.2))

/-- The CSS-wide keywords `parse_color` rejects up front. -/
def CSS_KEYWORDS : List (List Char) :=
  ["transparent".data, "inherit".data, "initial".data, "unset".data]

def isCssKeyword (cs : List Char) : Bool := decide (cs ∈ CSS_KEYWORDS)

def isDigitCh (c : Char) : Bool := '0' ≤ c && c ≤ '9'

/-- Decimal value of an ASCII digit string (Python `int` on a regex `\d+`
capture). -/
def decValue (ds : List Char) : Nat := ds.foldl (fun acc c => 10 * acc + (c.toNat - 48)) 0

/-- Match the regex `rgba?\((\d+),\s*(\d+),\s*(\d+)` at the start of `cs`
(`re.match` in `parse_color`); input after the third digit group is ignored. -/
def rgbMatchL (cs : List Char) : Option RGB :=
  let afterHead : Option (List Char) :=
    if "rgba(".data.isPrefixOf cs then some (cs.drop 5)
    else if "rgb(".data.isPrefixOf cs then some (cs.drop 4)
    else none
  match afterHead with
  | none => none
  | some r0 =>
    let d1 := r0.takeWhile isDigitCh
    if d1 = [] then none else
    match r0.drop d1.length with
    | ',' :: r1 =>
      let r1b := r1.dropWhile pySpace
      let d2 := r1b.takeWhile isDigitCh
      if d2 = [] then none else
      match r1b.drop d2.length with
      | ',' :: r2 =>
        let r2b := r2.dropWhile pySpace
        let d3 := r2b.takeWhile isDigitCh
        if d3 = [] then none
        else some ((decValue d1 : Int), (decValue d2 : Int), (decValue d3 : Int))
      | _ => none
    | _ => none

/-- The named-colour table of `parse_color`. -/
def NAMED_COLORS : List (List Char × RGB) :=
  [("white".data, (255,255,255)), ("black".data, (0,0,0)),
   ("red".data, (255,0,0)), ("green".data, (0,128,0)), ("blue".data, (0,0,255)),
   ("yellow".data, (255,255,0)), ("cyan".data, (0,255,255)), ("magenta".data, (255,0,255)),
   ("gray".data, (128,128,128)), ("grey".data, (128,128,128)),
   ("silver".data, (192,192,192)), ("maroon".data, (128,0,0)),
   ("olive".data, (128,128,0)), ("lime".data, (0,255,0)), ("aqua".data, (0,255,255)),
   ("teal".data, (0,128,128)), ("navy".data, (0,0,128)), ("fuchsia".data, (255,0,255)),
   ("purple".data, (128,0,128)), ("orange".data, (255,165,0))]

/-- Embedding of `ColorContrastAnalyzer.parse_color` on the char-list core: reject empty
strings and CSS-wide keywords, strip and lowercase, then try in order the hex
branch, the `rgb()`/`rgba()` regex branch and the named-colour table. -/
def parseColorL (cs : List Char) : Option RGB :=
  if cs = [] || isCssKeyword (pyLowerL cs) then none
  else
    let t := pyLowerL (stripL cs)
    if t.head? = some '#' then some (hexToRgbL t)
    else
      match rgbMatchL t with
      | some v => some v
      | none => (NAMED_COLORS.find? (fun p => p.1 == t)).map (fun p => p.2)

def parse_color (s : String) : Option RGB := parseColorL s.data

/-- A parsed document node: a BeautifulSoup `NavigableString` or `Tag`.
Attribute values are single strings; the (multi-valued) `class` attribute is
modelled as its space-joined word string. -/
inductive Node where
  | text : String → Node
  | elem : String → List (String × String) → List Node → Node

/-- Embedding of `element.get(key, dflt)`: attribute lookup on a tag. -/
def getAttr (n : Node) (key dflt : String) : String :=
  match n with
  | .text _ => dflt
  | .elem _ attrs _ => ((attrs.find? (fun p => p.1 == key)).map (fun p => p.2)).getD dflt

/-- Embedding of `element[key] = value`: attribute update on an attribute list. -/
def setAttr (attrs : List (String × String)) (key value : String) :
    List (String × String) :=
  if attrs.any (fun p => p.1 == key) then
    attrs.map (fun p => if p.1 == key then (p.1, value) else p)
  else attrs ++ [(key, value)]

def tagName : Node → String
  | .text _ => ""
  | .elem t _ _ => t

mutual
/-- The stripped nonempty descendant strings of a node in document order;
`element.get_text(strip=True)` is their concatenation. -/
def strippedStringsN : Node → List String
  | .text s =>
    let t := String.mk (stripL s.data)
    if t = "" then [] else [t]
  | .elem _ _ cs => strippedStringsL cs
def strippedStringsL : List Node → List String
  | [] => []
  | n :: rest => strippedStringsN n ++ strippedStringsL rest
end

/-- Embedding of `element.get_text(strip=True)`. -/
def getTextStrip (n : Node) : String := String.join (strippedStringsN n)

/-- Case-insensitive literal prefix test (`re.IGNORECASE`, keys lowercase). -/
def ciPrefix : List Char → List Char → Bool
  | [], _ => true
  | _ :: _, [] => false
  | k :: ks, c :: cs => (Char.toLower c = k) && ciPrefix ks cs

/-- At a fixed position, the value captured by `\s*([^;]+)`: greedy, with the
backtracking the engine performs when everything before the next `;` is
whitespace (then the group captures the last whitespace character).  Fails
exactly when the segment up to the next `;` is empty. -/
def matchValueAfter (cs : List Char) : Option (List Char) :=
  let t := cs.takeWhile (fun c => c != ';')
  if t = [] then none
  else
    let u := t.dropWhile pySpace
    if u = [] then some [t.getLastD ' '] else some u

/-- Embedding of `re.search` for a pattern `key\s*([^;]+)` with a literal
key: try each start position left to right. -/
def searchKeyValue (key : List Char) : List Char → Option (List Char)
  | [] => none
  | c :: rest =>
    match (if ciPrefix key (c :: rest) then matchValueAfter ((c :: rest).drop key.length)
           else none) with
    | some v => some v
    | none => searchKeyValue key rest

/-- One position of the `background(?:-color)?:\s*([^;]+)` pattern: the greedy
optional group tries `-color` first; the bare `background:` alternative can
only apply when `-color` is not present (the next character decides). -/
def matchBgAt (cs : List Char) : Option (List Char) :=
  if ciPrefix "background-color:".data cs then matchValueAfter (cs.drop 17)
  else if ciPrefix "background:".data cs then matchValueAfter (cs.drop 11)
  else none

def searchBgValue : List Char → Option (List Char)
  | [] => none
  | c :: rest =>
    match matchBgAt (c :: rest) with
    | some v => some v
    | none => searchBgValue rest

/-- Embedding of `ColorContrastAnalyzer.get_computed_colors`.  The foreground pattern
`color:\s*([^;]+)` is searched anywhere in the style string, so it also
matches the tail of a `background-color:` declaration.  The source's
post-default `if not colors[...]` guard in `analyze_html` can never fire
(a 3-tuple is always truthy) and is not represented. -/
def get_computed_colors (element : Node) (parent_bg : Option RGB) : RGB × RGB :=
  let style := getAttr element "style" ""
  let fg0 : Option RGB :=
    if style = "" then none
    else (searchKeyValue "color:".data style.data).bind (fun v => parseColorL v)
  let bg0 : Option RGB :=
    if style = "" then none
    else (searchBgValue style.data).bind (fun v => parseColorL v)
  (fg0.getD (0, 0, 0), bg0.getD (parent_bg.getD (255, 255, 255)))

/-! WCAG 2.1 threshold class constants: 4.5, 3.0, 7.0, 4.5 (written in
kernel-computable form; `mkRat 9 2 = 4.5`). -/

def WCAG_AA_NORMAL : ℚ := mkRat 9 2
def WCAG_AA_LARGE : ℚ := 3
def WCAG_AAA_NORMAL : ℚ := 7
def WCAG_AAA_LARGE : ℚ := mkRat 9 2

structure ComplianceResult where
  aa_normal : Bool
  aa_large : Bool
  aaa_normal : Bool
  aaa_large : Bool
  passes_aa : Bool
  passes_aaa : Bool
deriving DecidableEq

/-- Embedding of `ColorContrastAnalyzer.check_wcag_compliance`; float ratios are modelled
as exact rationals (the thresholds are exactly representable as doubles, so
the comparisons agree). -/
def check_wcag_compliance (contrast_ratio : ℚ) (is_large : Bool) : ComplianceResult :=
  { aa_normal := WCAG_AA_NORMAL ≤ contrast_ratio
    aa_large := WCAG_AA_LARGE ≤ contrast_ratio
    aaa_normal := WCAG_AAA_NORMAL ≤ contrast_ratio
    aaa_large := WCAG_AAA_LARGE ≤ contrast_ratio
    passes_aa := (if is_large then WCAG_AA_LARGE else WCAG_AA_NORMAL) ≤ contrast_ratio
    passes_aaa := (if is_large then WCAG_AAA_LARGE else WCAG_AAA_NORMAL) ≤ contrast_ratio }

inductive Severity where
  | high
  | medium
deriving DecidableEq

/-- The issue dict built in `analyze_html`.  The diagnostic `xpath` string
(`_get_xpath`) is not represented; no claim concerns it. -/
structure ContrastIssue where
  element : String
  text_preview : String
  foreground_color : String
  background_color : String
  contrast_ratio : ℚ
  is_large_text : Bool
  required_ratio : ℚ
  compliance : ComplianceResult
  severity : Severity
  element_index : Nat
deriving DecidableEq

structure ScanReport where
  total_elements_checked : Nat
  total_issues_found : Nat
  issues : List ContrastIssue
  summary_high_severity : Nat
  summary_medium_severity : Nat
deriving DecidableEq

def TEXT_TAGS : List String :=
  ["p", "span", "div", "a", "button", "h1", "h2", "h3", "h4", "h5", "h6",
   "li", "td", "th", "label"]

mutual
/-- Embedding of `soup.find_all([...TEXT_TAGS])`: matching tags in document
(pre-)order. -/
def findAllN : Node → List Node
  | .text _ => []
  | .elem t a cs => (if TEXT_TAGS.contains t then [Node.elem t a cs] else []) ++ findAllL cs
def findAllL : List Node → List Node
  | [] => []
  | n :: rest => findAllN n ++ findAllL rest
end

/-- Round half to even on rationals (Python `round` tie behaviour).  The
fractional part `q - ⌊q⌋ = r / q.den` is compared with 1/2 by integer
cross-multiplication so that the definition evaluates inside the kernel. -/
def roundHalfEven (q : ℚ) : ℤ :=
  let n := ⌊q⌋
  let r := q.num - n * (q.den : ℤ)
  if 2 * r < (q.den : ℤ) then n
  else if (q.den : ℤ) < 2 * r then n + 1
  else if n % 2 = 0 then n else n + 1

/-- Python `round(x, 2)`, modelled exactly on rationals:
`roundHalfEven (100 * q) / 100` (the scaling by 100 is written on the
numerator so that it evaluates inside the kernel). -/
def pyRound2 (q : ℚ) : ℚ := mkRat (roundHalfEven (mkRat (100 * q.num) q.den)) 100

/-- The scanner loop of `analyze_html` over the selected elements, threading
the `enumerate` index; returns `(elements_checked, issues)`.  The
floating-point contrast computation and the large-text classifier are passed
in as parameters `cr` and `il` (the real-valued contrast formula itself is
`calculate_contrast_ratio` below; `is_large_text`'s float parsing can raise
on pathological styles): every theorem about the scanner quantifies over
both, so it holds in particular for the source's concrete choices. -/
def scanElems (cr : RGB → RGB → ℚ) (il : Node → Bool) :
    Nat → List Node → Nat × List ContrastIssue
  | _, [] => (0, [])
  | idx, e :: rest =>
    let r := scanElems cr il (idx + 1) rest
    let text := getTextStrip e
    if text = "" then r
    else
      let colors := get_computed_colors e none
      let contrast_ratio := cr colors.1 colors.2
      let is_large := il e
      let compliance := check_wcag_compliance contrast_ratio is_large
      if compliance.passes_aa then (r.1 + 1, r.2)
      else
        (r.1 + 1,
         { element := tagName e
           text_preview :=
             if text.length > 100 then String.mk (text.data.take 100) else text
           foreground_color := rgb_to_hex colors.1
           background_color := rgb_to_hex colors.2
           contrast_ratio := pyRound2 contrast_ratio
           is_large_text := is_large
           required_ratio := if is_large then WCAG_AA_LARGE else WCAG_AA_NORMAL
           compliance := compliance
           severity := if contrast_ratio < 3 then Severity.high else Severity.medium
           element_index := idx } :: r.2)

/-- Embedding of `ColorContrastAnalyzer.analyze_html`, over an already-parsed document. -/
def analyze_html (cr : RGB → RGB → ℚ) (il : Node → Bool) (doc : List Node) :
    ScanReport :=
  let r := scanElems cr il 0 (findAllL doc)
  { total_elements_checked := r.1
    total_issues_found := r.2.length
    issues := r.2
    summary_high_severity := (r.2.filter (fun i => i.severity = Severity.high)).length
    summary_medium_severity := (r.2.filter (fun i => i.severity = Severity.medium)).length }

/-- The number of selected elements with nonempty stripped text: the elements
the scanner counts (passing and failing alike). -/
def countTextElems (doc : List Node) : Nat :=
  ((findAllL doc).filter (fun e => getTextStrip e != "")).length

/-- Embedding of `adjust_channel` inside `get_relative_luminance`: WCAG
gamma linearization, over the reals. -/
noncomputable def adjust_channel (channel : Int) : ℝ :=
  let c : ℝ := (channel : ℝ) / 255
  if c ≤ 0.03928 then c / 12.92 else ((c + 0.055) / 1.055) ^ (2.4 : ℝ)

/-- Embedding of `ColorContrastAnalyzer.get_relative_luminance`. -/
noncomputable def get_relative_luminance (rgb : RGB) : ℝ :=
  0.2126 * adjust_channel rgb.1 + 0.7152 * adjust_channel rgb.2.1
    + 0.0722 * adjust_channel rgb.2.2

/-- Embedding of `ColorContrastAnalyzer.calculate_contrast_ratio`. -/
noncomputable def calculate_contrast_ratio (color1 color2 : RGB) : ℝ :=
  let lum1 := get_relative_luminance color1
  let lum2 := get_relative_luminance color2
  let lighter := max lum1 lum2
  let darker := min lum1 lum2
  (lighter + 0.05) / (darker + 0.05)

/-- The tooltip stylesheet text injected by `add_tooltips_to_html`
(the triple-quoted CSS literal of the source, braces escaped). -/
def tooltipCss : String :=
  "\n        .contrast-issue-marker \x7b\n            border: 2px solid red !important;\n            position: relative;\n            cursor: help;\n        \x7d\n        .contrast-issue-marker::after \x7b\n            content: \x27⚠️\x27;\n            position: absolute;\n            top: -10px;\n            right: -10px;\n            background: red;\n            color: white;\n            border-radius: 50%;\n            width: 20px;\n            height: 20px;\n            display: flex;\n            align-items: center;\n            justify-content: center;\n            font-size: 12px;\n        \x7d\n        .contrast-tooltip \x7b\n            visibility: hidden;\n            background-color: #333;\n            color: #fff;\n            text-align: left;\n            border-radius: 6px;\n            padding: 10px;\n            position: absolute;\n            z-index: 10000;\n            bottom: 125%;\n            left: 50%;\n            transform: translateX(-50%);\n            width: 300px;\n            font-size: 12px;\n            line-height: 1.4;\n        \x7d\n        .contrast-issue-marker:hover .contrast-tooltip \x7b\n            visibility: visible;\n        \x7d\n        "

/-- The `<style>` tag built by `soup.new_tag` and `style_tag.string = ...`. -/
def styleTag : Node := Node.elem "style" [] [Node.text tooltipCss]

/-- Decimal rendering of a nonnegative rational with at most two decimal
places (every value interpolated into the tooltip f-string is of this shape);
models Python `str()` on the corresponding floats, e.g. 2.54, 4.5, 3.0. -/
def ratStr (q : ℚ) : String :=
  let i := (⌊q⌋).toNat
  let c := (⌊q * 100⌋ - 100 * ⌊q⌋).toNat
  if c % 10 = 0 then toString i ++ "." ++ toString (c / 10)
  else toString i ++ "." ++ toString (c / 10) ++ toString (c % 10)

/-- Python `issue['severity'].upper()`. -/
def severityUpper : Severity → String
  | .high => "HIGH"
  | .medium => "MEDIUM"

/-- The stripped tooltip f-string of `add_tooltips_to_html`. -/
def tooltipText (issue : ContrastIssue) : String :=
  "Contrast Issue!\nRatio: " ++ ratStr issue.contrast_ratio ++ ":1\nRequired: "
    ++ ratStr issue.required_ratio ++ ":1\nForeground: " ++ issue.foreground_color
    ++ "\nBackground: " ++ issue.background_color ++ "\nSeverity: "
    ++ severityUpper issue.severity

/-- The `div.contrast-tooltip` element appended to a marked element. -/
def tooltipNode (issue : ContrastIssue) : Node :=
  Node.elem "div" [("class", "contrast-tooltip")] [Node.text (tooltipText issue)]

/-- Mutation applied to an element whose scan index has a matching issue:
add the marker class, set `data-contrast-issue`, append the tooltip child. -/
def applyMark (issue : ContrastIssue) : Node → Node
  | .text s => .text s
  | .elem t attrs cs =>
    let oldCls := getAttr (Node.elem t attrs cs) "class" ""
    let newCls := if oldCls = "" then "contrast-issue-marker"
                  else oldCls ++ " contrast-issue-marker"
    let attrs2 := setAttr (setAttr attrs "class" newCls) "data-contrast-issue" "true"
    .elem t attrs2 (cs ++ [tooltipNode issue])

mutual
/-- First `head` element of the document in pre-order (`soup.head`). -/
def findHeadN : Node → Option Node
  | .text _ => none
  | .elem t a cs => if t == "head" then some (.elem t a cs) else findHeadL cs
def findHeadL : List Node → Option Node
  | [] => none
  | n :: rest =>
    match findHeadN n with
    | some h => some h
    | none => findHeadL rest
end

mutual
/-- Append the style tag to the children of the first `head` element in
document order; the Bool reports whether a `head` was found. -/
def appendStyleN : Node → Node × Bool
  | .text s => (.text s, false)
  | .elem t a cs =>
    if t == "head" then (.elem t a (cs ++ [styleTag]), true)
    else
      let r := appendStyleL cs
      (.elem t a r.1, r.2)
def appendStyleL : List Node → List Node × Bool
  | [] => ([], false)
  | n :: rest =>
    let r := appendStyleN n
    if r.2 then (r.1 :: rest, true)
    else
      let r2 := appendStyleL rest
      (n :: r2.1, r2.2)
end

/-- Stylesheet-injection step of `add_tooltips_to_html`: `if soup.head:`
append the style tag into that (first) `head` element, `else` insert a fresh
`head` at position 0.  A bs4 `Tag.__bool__` returns True unconditionally, so
the test is purely on the existence of a `head` element — an existing but
empty `head` still receives the style tag. -/
def injectStyle (doc : List Node) : List Node :=
  match findHeadL doc with
  | some _ => (appendStyleL doc).1
  | none => Node.elem "head" [] [styleTag] :: doc

mutual
/-- Marker pass of `add_tooltips_to_html`: re-walk the text-tag selection in
the same order as the scanner (the `find_all` list is snapshotted before any
mutation, so appended tooltip divs are not themselves visited) and transform
each element whose index has a matching issue (`matching_issues[0]`). -/
def markN (issues : List ContrastIssue) (idx : Nat) : Node → Node × Nat
  | .text s => (.text s, idx)
  | .elem t a cs =>
    let isTextTag := TEXT_TAGS.contains t
    let idx1 := if isTextTag then idx + 1 else idx
    let r := markL issues idx1 cs
    let node := Node.elem t a r.1
    if isTextTag then
      match (issues.filter (fun i => i.element_index == idx)).head? with
      | some issue => (applyMark issue node, r.2)
      | none => (node, r.2)
    else (node, r.2)
def markL (issues : List ContrastIssue) (idx : Nat) : List Node → List Node × Nat
  | [] => ([], idx)
  | n :: rest =>
    let r := markN issues idx n
    let r2 := markL issues r.2 rest
    (r.1 :: r2.1, r2.2)
end

/-- Embedding of `ColorContrastAnalyzer.add_tooltips_to_html` on the parsed
document: unconditionally inject the tooltip stylesheet, then run the marker
pass over the text-tag selection. -/
def add_tooltips_to_html (doc : List Node) (issues : List ContrastIssue) :
    List Node :=
  (markL issues 0 (injectStyle doc)).1

/-- Lowercase hexadecimal digit character for a value in 0..15. -/
def lowerHexChar : Nat → Char
  | 0 => '0' | 1 => '1' | 2 => '2' | 3 => '3' | 4 => '4'
  | 5 => '5' | 6 => '6' | 7 => '7' | 8 => '8' | 9 => '9'
  | 10 => 'a' | 11 => 'b' | 12 => 'c' | 13 => 'd' | 14 => 'e'
  | _ => 'f'

/-- Normal form of a valid hex colour string according to the spec: leading
`#`, lowercase, with 3-digit shorthand expanded to 6 digits.  This definition
follows the spec wording (for the round-trip comparison), not the source. -/
def normalizedHexForm (s : String) : String :=
  let d := pyLowerL s.data
  String.mk ('#' :: (if d.length = 3 then d.flatMap (fun c => [c, c]) else d))

/-- A test element whose inline style declares only `background-color`. -/
def bgOnlyElem : Node :=
  Node.elem "span" [("style", "background-color: blue")] [Node.text "hi"]

/-- A concrete contrast function used to instantiate scanner theorems. -/
def crW : RGB → RGB → ℚ := fun _ _ => 4

/-- A concrete large-text classifier used to instantiate scanner theorems. -/
def ilW : Node → Bool := fun _ => false

/-- A one-element document used to instantiate scanner theorems. -/
def docW : List Node := [Node.elem "p" [] [Node.text "hi"]]

/-- The issue `analyze_html crW ilW docW` reports for its single element. -/
def issueW : ContrastIssue :=
  { element := "p"
    text_preview := "hi"
    foreground_color := rgb_to_hex (0, 0, 0)
    background_color := rgb_to_hex (255, 255, 255)
    contrast_ratio := pyRound2 4
    is_large_text := false
    required_ratio := WCAG_AA_NORMAL
    compliance := check_wcag_compliance 4 false
    severity := Severity.medium
    element_index := 0 }


/-! ### Helper lemmas -/

theorem dropWhile_eq_self_of (p : Char → Bool) (cs : List Char)
    (h : ∀ c ∈ cs, p c = false) : cs.dropWhile p = cs := by
  cases cs with
  | nil => rfl
  | cons c rest =>
    rw [List.dropWhile_cons, h c (List.mem_cons_self c rest)]
    simp

theorem stripL_of_no_space (cs : List Char) (h : ∀ c ∈ cs, pySpace c = false) :
    stripL cs = cs := by
  unfold stripL
  rw [dropWhile_eq_self_of _ _ h,
    dropWhile_eq_self_of _ _ (fun c hc => h c (List.mem_reverse.mp hc)),
    List.reverse_reverse]

/-! ### Claim theorems: colour model -/

/-- C6: `calculate_contrast_ratio` is symmetric in its two colour
arguments — swapping them never changes the result, because the formula
orders the two luminances with max and min before dividing. -/
theorem contrast_ratio_symm (a b : RGB) :
    calculate_contrast_ratio a b = calculate_contrast_ratio b a := by
  simp only [calculate_contrast_ratio]
  rw [max_comm, min_comm]

/-- C7: for a fixed text-size class, `check_wcag_compliance`'s required-AA
verdict is monotone non-decreasing in the contrast ratio. -/
theorem passes_required_monotone (r1 r2 : ℚ) (isLarge : Bool)
    (hle : r1 ≤ r2) (h1 : (check_wcag_compliance r1 isLarge).passes_aa = true) :
    (check_wcag_compliance r2 isLarge).passes_aa = true := by
  simp only [check_wcag_compliance, decide_eq_true_eq] at h1 ⊢
  exact le_trans h1 hle

/-- Witness for C7 at the concrete ratios 5 ≤ 6 with normal text. -/
theorem passes_required_monotone_witness :
    (5 : ℚ) ≤ 6 ∧ (check_wcag_compliance 6 false).passes_aa = true :=
  ⟨by norm_num, passes_required_monotone 5 6 false (by norm_num) (by decide)⟩

/-- C9: `parse_color` accepts `rgb()` notation with components above 255 and
returns them unclamped, outside the 0..255 range of the colour model. -/
theorem parse_color_rgb_overflow :
    parse_color "rgb(999, 0, 0)" = some (999, 0, 0) ∧ (255 : Int) < 999 :=
  ⟨by decide, by decide⟩

/-- C2 (code bug): on an element whose inline style declares only
`background-color: blue`, the foreground regex `color:\s*([^;]+)` matches
the tail of the `background-color` declaration, so the resolved foreground
is blue rather than the documented black default. -/
theorem foreground_from_background_only :
    (get_computed_colors bgOnlyElem none).1 = ((0 : Int), 0, 255) ∧
      ((0 : Int), (0 : Int), (255 : Int)) ≠ ((0 : Int), (0 : Int), (0 : Int)) :=
  ⟨by decide, by decide⟩

/-! ### Scanner invariants -/

theorem scanElems_passes_aa (cr : RGB → RGB → ℚ) (il : Node → Bool) :
    ∀ (idx : Nat) (es : List Node) (i : ContrastIssue),
      i ∈ (scanElems cr il idx es).2 → i.compliance.passes_aa = false := by
  intro idx es
  induction es generalizing idx with
  | nil => intro i h; simp [scanElems] at h
  | cons e rest ih =>
    intro i h
    simp only [scanElems] at h
    split at h
    · exact ih _ i h
    · split at h
      · exact ih _ i h
      · next hc =>
        rcases List.mem_cons.mp h with rfl | h2
        · simpa using hc
        · exact ih _ i h2

theorem scanElems_count (cr : RGB → RGB → ℚ) (il : Node → Bool) :
    ∀ (idx : Nat) (es : List Node),
      (scanElems cr il idx es).1
        = (es.filter (fun e => getTextStrip e != "")).length := by
  intro idx es
  induction es generalizing idx with
  | nil => simp [scanElems]
  | cons e rest ih =>
    simp only [scanElems, List.filter_cons]
    by_cases ht : getTextStrip e = ""
    · simp [ht, ih]
    · rw [if_neg ht]
      split <;> simp [ht, ih]

theorem scanElems_le (cr : RGB → RGB → ℚ) (il : Node → Bool) :
    ∀ (idx : Nat) (es : List Node),
      (scanElems cr il idx es).2.length ≤ (scanElems cr il idx es).1 := by
  intro idx es
  induction es generalizing idx with
  | nil => simp [scanElems]
  | cons e rest ih =>
    simp only [scanElems]
    split
    · exact ih _
    · split
      · exact Nat.le_succ_of_le (ih _)
      · simpa using Nat.succ_le_succ (ih _)

theorem scanElems_ratio (cr : RGB → RGB → ℚ) (il : Node → Bool) :
    ∀ (idx : Nat) (es : List Node) (i : ContrastIssue),
      i ∈ (scanElems cr il idx es).2 →
        ∃ fg bg : RGB, i.foreground_color = rgb_to_hex fg ∧
          i.background_color = rgb_to_hex bg ∧
          i.contrast_ratio = pyRound2 (cr fg bg) := by
  intro idx es
  induction es generalizing idx with
  | nil => intro i h; simp [scanElems] at h
  | cons e rest ih =>
    intro i h
    simp only [scanElems] at h
    split at h
    · exact ih _ i h
    · split at h
      · exact ih _ i h
      · rcases List.mem_cons.mp h with rfl | h2
        · exact ⟨(get_computed_colors e none).1, (get_computed_colors e none).2,
            rfl, rfl, rfl⟩
        · exact ih _ i h2

theorem severity_partition (l : List ContrastIssue) :
    (l.filter (fun i => i.severity = Severity.high)).length
      + (l.filter (fun i => i.severity = Severity.medium)).length = l.length := by
  induction l with
  | nil => simp
  | cons i t ih =>
    rcases hs : i.severity <;>
      simp [List.filter_cons, hs, ← ih] <;> omega

/-- C5: in every scan report, every reported issue fails the required AA
threshold, and the checked-elements counter equals the number of selected
elements with nonempty stripped text, so passing elements are counted but
never reported. -/
theorem scan_issues_fail_required (cr : RGB → RGB → ℚ) (il : Node → Bool)
    (doc : List Node) :
    ((analyze_html cr il doc).issues.all fun i => !i.compliance.passes_aa) = true ∧
      (analyze_html cr il doc).total_elements_checked = countTextElems doc := by
  constructor
  · rw [List.all_eq_true]
    intro i hi
    have := scanElems_passes_aa cr il 0 (findAllL doc) i hi
    simp [this]
  · simpa [analyze_html, countTextElems] using scanElems_count cr il 0 (findAllL doc)

/-- C8: in every scan report, the high- and medium-severity summary counts
partition the issue list, and the number of issues never exceeds the number
of elements checked. -/
theorem scan_summary_counts (cr : RGB → RGB → ℚ) (il : Node → Bool)
    (doc : List Node) :
    (analyze_html cr il doc).summary_high_severity
        + (analyze_html cr il doc).summary_medium_severity
        = (analyze_html cr il doc).total_issues_found ∧
      (analyze_html cr il doc).total_issues_found
        ≤ (analyze_html cr il doc).total_elements_checked := by
  refine ⟨?_, ?_⟩
  · simpa [analyze_html] using severity_partition (scanElems cr il 0 (findAllL doc)).2
  · simpa [analyze_html] using scanElems_le cr il 0 (findAllL doc)

/-- C10: every reported issue carries, in its `contrast_ratio` field, the
2-decimal rounding of the contrast ratio computed from its element's
resolved colours — the same colours whose hex strings the issue carries —
rather than the full-precision value used for the compliance comparison. -/
theorem issue_ratio_rounded (cr : RGB → RGB → ℚ) (il : Node → Bool)
    (doc : List Node) (i : ContrastIssue)
    (hi : i ∈ (analyze_html cr il doc).issues) :
    ∃ fg bg : RGB, i.foreground_color = rgb_to_hex fg ∧
      i.background_color = rgb_to_hex bg ∧
      i.contrast_ratio = pyRound2 (cr fg bg) :=
  scanElems_ratio cr il 0 (findAllL doc) i hi

/-- Witness for C10 on a concrete one-element document whose single issue is
`issueW`. -/
theorem issue_ratio_rounded_witness :
    ∃ fg bg : RGB, issueW.foreground_color = rgb_to_hex fg ∧
      issueW.background_color = rgb_to_hex bg ∧
      issueW.contrast_ratio = pyRound2 (crW fg bg) :=
  issue_ratio_rounded crW ilW docW issueW (by decide)

/-! ### Annotator -/

theorem markL_nil_fst (idx : Nat) (ns : List Node) : (markL [] idx ns).1 = ns :=
  markL.induct []
    (fun i n => (markN [] i n).1 = n)
    (fun i l => (markL [] i l).1 = l)
    (fun _ _ => rfl)
    (fun _ _ _ _ _ _ hfilt _ => by simp at hfilt)
    (fun _ _ _ _ htag hfilt ih => by simp_all [markN])
    (fun _ _ _ _ htag ih => by simp_all [markN])
    (fun _ => rfl)
    (fun _ n rest ih1 ih2 => by simp_all [markL])
    idx ns

/-- C1 (amended): on an empty issue list the annotator still injects the
tooltip stylesheet, but performs no other change: the result is exactly the
stylesheet-injection step applied to the document, with no element marked. -/
theorem annotate_empty_injects_style_only (doc : List Node) :
    add_tooltips_to_html doc [] = injectStyle doc := by
  rw [add_tooltips_to_html, markL_nil_fst]

/-- C1 (counterexample): the annotator does not return the empty document
unchanged on an empty issue list — a `head` containing the tooltip
stylesheet is injected unconditionally. -/
theorem annotate_empty_not_id :
    add_tooltips_to_html [] [] ≠ ([] : List Node) := by
  have h : add_tooltips_to_html [] [] = [Node.elem "head" [] [styleTag]] := rfl
  rw [h]
  exact List.cons_ne_nil _ _

/-! ### Hex parsing lemmas -/

theorem hex_char_raw (c : Char) (h : isHexDigitCh c = true) :
    pySpace c = false ∧ c ≠ '+' ∧ c ≠ '-' ∧ c ≠ '_' ∧ hexVal c < 16 := by
  have h' : c ∈ hexDigitChars := by simpa [isHexDigitCh] using h
  fin_cases h' <;> decide

theorem hex_char_lower (c : Char) (h : isHexDigitCh c = true) :
    isHexDigitCh (Char.toLower c) = true ∧ (Char.toLower c == '#') = false ∧
      hexVal (Char.toLower c) < 16 ∧
      lowerHexChar (hexVal (Char.toLower c)) = Char.toLower c := by
  have h' : c ∈ hexDigitChars := by simpa [isHexDigitCh] using h
  fin_cases h' <;> decide

theorem pyIntHex_two_hex (c0 c1 : Char)
    (h0 : isHexDigitCh c0 = true) (h1 : isHexDigitCh c1 = true) :
    pyIntHex (String.mk [c0, c1])
      = some (((16 * hexVal c0 + hexVal c1 : Nat) : Int)) := by
  obtain ⟨hs0, hp0, hm0, hu0, _⟩ := hex_char_raw c0 h0
  obtain ⟨hs1, hp1, hm1, hu1, _⟩ := hex_char_raw c1 h1
  have hstrip : stripL [c0, c1] = [c0, c1] :=
    stripL_of_no_space _ (by
      intro c hc
      rcases List.mem_pair.mp hc with rfl | rfl <;> assumption)
  simp only [pyIntHex]
  rw [hstrip]
  simp [parseHexSeq, hexDigitsAux, h0, h1, hp0, hm0, hu1]

theorem not_keyword_hash (xs : List Char) : isCssKeyword ('#' :: xs) = false := by
  rw [isCssKeyword, decide_eq_false_iff_not]
  intro hmem
  have h1 := List.mem_map_of_mem List.head? hmem
  rw [show CSS_KEYWORDS.map List.head? = [some 't', some 'i', some 'i', some 'u']
    from rfl] at h1
  simp only [List.head?_cons, List.mem_cons, List.not_mem_nil, or_false] at h1
  rcases h1 with h | h | h | h <;> exact absurd h (by decide)

theorem parse_color_hash_hex (l : List Char)
    (hhex : ∀ c ∈ l, isHexDigitCh c = true) :
    parse_color (String.mk ('#' :: l)) = some (hexToRgbL ('#' :: pyLowerL l)) := by
  have hlow : pyLowerL ('#' :: l) = '#' :: pyLowerL l := by
    simp [pyLowerL, show Char.toLower '#' = '#' from rfl]
  have hstrip : stripL ('#' :: l) = '#' :: l := by
    apply stripL_of_no_space
    intro c hc
    rcases List.mem_cons.mp hc with rfl | hc
    · rfl
    · exact (hex_char_raw c (hhex c hc)).1
  rw [parse_color, show (String.mk ('#' :: l)).data = '#' :: l from rfl]
  simp only [parseColorL, hlow, not_keyword_hash, hstrip]
  simp

theorem dropHash_lower (l : List Char) (hhex : ∀ c ∈ l, isHexDigitCh c = true) :
    ('#' :: pyLowerL l).dropWhile (fun c => c == '#') = pyLowerL l := by
  rw [List.dropWhile_cons, if_pos (show ('#' == '#') = true from rfl)]
  exact dropWhile_eq_self_of _ _ (by
    intro c hc
    rcases List.mem_map.mp hc with ⟨c0, hc0, rfl⟩
    exact (hex_char_lower c0 (hhex c0 hc0)).2.1)

set_option maxRecDepth 10000 in
theorem fmt02xL_byte : ∀ n : Nat, n < 256 →
    fmt02xL ((n : Nat) : Int) = [lowerHexChar (n / 16), lowerHexChar (n % 16)] := by
  decide

theorem fmt02xL_two (x y : Char)
    (hx : hexVal x < 16) (hy : hexVal y < 16)
    (hlx : lowerHexChar (hexVal x) = x) (hly : lowerHexChar (hexVal y) = y) :
    fmt02xL (16 * (hexVal x : Int) + (hexVal y : Int)) = [x, y] := by
  have h : (16 * (hexVal x : Int) + (hexVal y : Int))
      = ((16 * hexVal x + hexVal y : Nat) : Int) := by push_cast; ring
  rw [h, fmt02xL_byte (16 * hexVal x + hexVal y) (by omega)]
  rw [Nat.mul_add_div (by norm_num), Nat.div_eq_of_lt hy, Nat.add_zero]
  rw [Nat.mul_add_mod, Nat.mod_eq_of_lt hy]
  rw [hlx, hly]

theorem sliceL_nil_of_le (m : List Char) (i j : Nat) (h : m.length ≤ i) :
    sliceL m i j = [] := by
  simp [sliceL, List.drop_eq_nil_of_le h]

/-- C3 (amended): a '#'-prefixed hex colour string whose digit count is
neither 3 nor 6 falls back to black when it has at most 4 digits (0, 1, 2 or
4 — an inner slice of the parse is then empty and raises); with 5 or more
digits the leading slices parse successfully instead (counterexample
`parse_color_five_digit_hex_partial`). -/
theorem parse_color_short_bad_hex_black (l : List Char)
    (hhex : ∀ c ∈ l, isHexDigitCh c = true)
    (hlen : l.length = 0 ∨ l.length = 1 ∨ l.length = 2 ∨ l.length = 4) :
    parse_color (String.mk ('#' :: l)) = some ((0 : Int), 0, 0) := by
  rw [parse_color_hash_hex l hhex]
  have hlen' : (pyLowerL l).length = l.length := List.length_map _ _
  simp only [hexToRgbL, dropHash_lower l hhex]
  rw [if_neg (by omega)]
  have h24 : l.length ≤ 2 → pyIntHex (String.mk (sliceL (pyLowerL l) 2 4)) = none := by
    intro hle
    rw [sliceL_nil_of_le _ _ _ (by omega)]
    rfl
  have h46 : l.length ≤ 4 → pyIntHex (String.mk (sliceL (pyLowerL l) 4 6)) = none := by
    intro hle
    rw [sliceL_nil_of_le _ _ _ (by omega)]
    rfl
  rcases hlen with h | h | h | h
  · rcases ha : pyIntHex (String.mk (sliceL (pyLowerL l) 0 2)) with _ | va <;>
      rcases hb : pyIntHex (String.mk (sliceL (pyLowerL l) 4 6)) with _ | vb <;>
      simp [ha, hb, h24 (by omega)]
  · rcases ha : pyIntHex (String.mk (sliceL (pyLowerL l) 0 2)) with _ | va <;>
      rcases hb : pyIntHex (String.mk (sliceL (pyLowerL l) 4 6)) with _ | vb <;>
      simp [ha, hb, h24 (by omega)]
  · rcases ha : pyIntHex (String.mk (sliceL (pyLowerL l) 0 2)) with _ | va <;>
      rcases hb : pyIntHex (String.mk (sliceL (pyLowerL l) 4 6)) with _ | vb <;>
      simp [ha, hb, h24 (by omega)]
  · rcases ha : pyIntHex (String.mk (sliceL (pyLowerL l) 0 2)) with _ | va <;>
      rcases hb : pyIntHex (String.mk (sliceL (pyLowerL l) 2 4)) with _ | vb <;>
      simp [ha, hb, h46 (by omega)]

/-- Witness for C3 (amended) at the 2-digit input "#ab". -/
theorem parse_color_short_bad_hex_black_witness :
    parse_color (String.mk ('#' :: ['a', 'b'])) = some ((0 : Int), 0, 0) :=
  parse_color_short_bad_hex_black ['a', 'b'] (by decide) (by decide)

/-- C3 (counterexample): the 5-digit hex string "#abcde" is not mapped to
black — the slices "ab", "cd", "e" all parse, yielding (171, 205, 14). -/
theorem parse_color_five_digit_hex_partial :
    parse_color "#abcde" = some ((171 : Int), 205, 14) ∧
      some ((171 : Int), (205 : Int), (14 : Int))
        ≠ some ((0 : Int), (0 : Int), (0 : Int)) :=
  ⟨by decide, by decide⟩

/-- C4 (counterexample): a valid 3-digit hex string *without* the leading '#'
is not treated as hex at all — `parse_color "fff"` returns none, not a
colour. -/
theorem parse_color_unprefixed_hex_none : parse_color "fff" = none := by decide

/-- C4 (amended): for every valid 3- or 6-digit hex string (any letter case)
*with* a leading '#', `parse_color` returns a colour, and `rgb_to_hex` of
that colour is the normalized lowercase 6-digit '#'-prefixed form of the
input. -/
theorem parse_color_hex_roundtrip (l : List Char)
    (hlen : l.length = 3 ∨ l.length = 6)
    (hhex : ∀ c ∈ l, isHexDigitCh c = true) :
    ∃ rgb : RGB, parse_color (String.mk ('#' :: l)) = some rgb ∧
      rgb_to_hex rgb = normalizedHexForm (String.mk l) := by
  refine ⟨hexToRgbL ('#' :: pyLowerL l), parse_color_hash_hex l hhex, ?_⟩
  rcases hlen with h3 | h6
  · obtain ⟨a, b, c, rfl⟩ := List.length_eq_three.mp h3
    obtain ⟨ha1, ha2, ha3, ha4⟩ := hex_char_lower a (hhex a (by simp))
    obtain ⟨hb1, hb2, hb3, hb4⟩ := hex_char_lower b (hhex b (by simp))
    obtain ⟨hc1, hc2, hc3, hc4⟩ := hex_char_lower c (hhex c (by simp))
    have hd := dropHash_lower [a, b, c] hhex
    simp only [pyLowerL, List.map_cons, List.map_nil] at hd ⊢
    simp [hexToRgbL, normalizedHexForm, pyLowerL, hd, sliceL,
      pyIntHex_two_hex _ _ ha1 ha1, pyIntHex_two_hex _ _ hb1 hb1,
      pyIntHex_two_hex _ _ hc1 hc1, rgb_to_hex,
      fmt02xL_two _ _ ha3 ha3 ha4 ha4, fmt02xL_two _ _ hb3 hb3 hb4 hb4,
      fmt02xL_two _ _ hc3 hc3 hc4 hc4]
  · rcases l with _ | ⟨a, l⟩
    · simp at h6
    rcases l with _ | ⟨b, l⟩
    · simp at h6
    rcases l with _ | ⟨c, l⟩
    · simp at h6
    rcases l with _ | ⟨d, l⟩
    · simp at h6
    rcases l with _ | ⟨e, l⟩
    · simp at h6
    rcases l with _ | ⟨f, l⟩
    · simp at h6
    rcases l with _ | ⟨g, l⟩
    case cons.cons.cons.cons.cons.cons.cons =>
      exfalso
      simp [List.length_cons] at h6
    obtain ⟨ha1, ha2, ha3, ha4⟩ := hex_char_lower a (hhex a (by simp))
    obtain ⟨hb1, hb2, hb3, hb4⟩ := hex_char_lower b (hhex b (by simp))
    obtain ⟨hc1, hc2, hc3, hc4⟩ := hex_char_lower c (hhex c (by simp))
    obtain ⟨hd1, hd2, hd3, hd4⟩ := hex_char_lower d (hhex d (by simp))
    obtain ⟨he1, he2, he3, he4⟩ := hex_char_lower e (hhex e (by simp))
    obtain ⟨hf1, hf2, hf3, hf4⟩ := hex_char_lower f (hhex f (by simp))
    have hd := dropHash_lower [a, b, c, d, e, f] hhex
    simp only [pyLowerL, List.map_cons, List.map_nil] at hd ⊢
    simp [hexToRgbL, normalizedHexForm, pyLowerL, hd, sliceL,
      pyIntHex_two_hex _ _ ha1 hb1, pyIntHex_two_hex _ _ hc1 hd1,
      pyIntHex_two_hex _ _ he1 hf1, rgb_to_hex,
      fmt02xL_two _ _ ha3 hb3 ha4 hb4, fmt02xL_two _ _ hc3 hd3 hc4 hd4,
      fmt02xL_two _ _ he3 hf3 he4 hf4]

/-- Witness for C4 (amended) at the mixed-case 3-digit input "#AbC". -/
theorem parse_color_hex_roundtrip_witness :
    ∃ rgb : RGB, parse_color (String.mk ('#' :: ['A', 'b', 'C'])) = some rgb ∧
      rgb_to_hex rgb = normalizedHexForm (String.mk ['A', 'b', 'C']) :=
  parse_color_hex_roundtrip ['A', 'b', 'C'] (by decide) (by decide)

end ColorSense
